import Mathlib

/-!
Shallow embedding of `src/starleth_elevation_map/src/ElevationMap.cpp`
(the grid-based recursive elevation-map fusion engine).

Modelling conventions:
* C++ `double` values are modelled as rationals (`ℚ`); the `NAN` sentinel of the
  elevation and variance channels is modelled as `none : Option ℚ`, an initialized
  value as `some v`.  Arithmetic on `NAN` (which propagates in IEEE floats) is
  modelled by `Option.map`, which propagates `none`.
* The five per-cell grid channels (`elevationData_`, `varianceData_`,
  `varianceDataX_`, `varianceDataY_`, `colorData_`) are row-major
  `List (List _)` values.
* External collaborators (ROS transform lookup/broadcast, point-cloud transport,
  the cell indexer `starleth_elevation_msg::getIndexFromPosition`, subscriber
  counting) are parameters of the pipeline functions; the control flow around
  them mirrors `pointCloudCallback` (lines 78-95) exactly.
-/

namespace StarlethElevationMap

/-- Line 195: `double measurementVariance = 0.3;` — the constant per-observation
sensor noise used by `addToElevationMap`. -/
def measurementVariance : ℚ := 3/10

/-- Line 121-123: the constant process-noise increment `0.005` added to every
variance entry by `updateProcessNoise`. -/
def processNoiseIncrement : ℚ := 1/200

/-- One point of the (already transformed) point cloud: position, height and
RGB color, as read from `pcl::PointXYZRGB` in `addToElevationMap`. -/
structure PointXYZRGB where
  x : ℚ
  y : ℚ
  z : ℚ
  r : ℕ
  g : ℕ
  b : ℕ
deriving DecidableEq

/-- Line 212: `color = ((int)point.r) << 16 | ((int)point.g) << 8 | ((int)point.b);`. -/
def packColor (p : PointXYZRGB) : ℕ :=
  (p.r <<< 16) ||| (p.g <<< 8) ||| p.b

/-- The five per-cell values addressed by one grid index in `addToElevationMap`
(lines 189-193). -/
structure Cell where
  elevation : Option ℚ
  variance : Option ℚ
  varianceX : Option ℚ
  varianceY : Option ℚ
  color : ℕ
deriving DecidableEq

/-- Lines 195-212 of `ElevationMap.cpp`: fusion of one measurement `(z, col)`
into one cell.  If `elevation` is `NaN` the cold-start branch stores the
measurement and sets all three variances to `measurementVariance`; otherwise
the inverse-variance update runs.  Note that lines 207-209 update `variance`
first and then compute `varianceX` and `varianceY` from the freshly written
`variance`, so the `let varianceNew` value feeds the X/Y formulas. -/
def fuseCell (c : Cell) (z : ℚ) (col : ℕ) : Cell :=
  match c.elevation with
  | none =>
      { elevation := some z
        variance := some measurementVariance
        varianceX := some measurementVariance
        varianceY := some measurementVariance
        color := col }
  | some e =>
      let elevationNew := c.variance.map
        (fun v => (v * z + measurementVariance * e) / (v + measurementVariance))
      let varianceNew := c.variance.map
        (fun v => (measurementVariance * v) / (measurementVariance + v))
      let varianceXNew := varianceNew.map
        (fun v => (measurementVariance * v) / (measurementVariance + v))
      let varianceYNew := varianceNew.map
        (fun v => (measurementVariance * v) / (measurementVariance + v))
      { elevation := elevationNew
        variance := varianceNew
        varianceX := varianceXNew
        varianceY := varianceYNew
        color := col }

/-- The dense grid: the five Eigen matrices held by the `ElevationMap` class. -/
structure GridData where
  elevationData : List (List (Option ℚ))
  varianceData : List (List (Option ℚ))
  varianceDataX : List (List (Option ℚ))
  varianceDataY : List (List (Option ℚ))
  colorData : List (List ℕ)
deriving DecidableEq

/-- Read entry `(r, c)` of a row-major matrix, with a default for out-of-range
access. -/
def get2d (m : List (List α)) (r c : ℕ) (d : α) : α :=
  (m.getD r []).getD c d

/-- Write entry `(r, c)` of a row-major matrix (no-op when out of range, which
matches the indexer refusing out-of-bounds positions). -/
def set2d (m : List (List α)) (r c : ℕ) (v : α) : List (List α) :=
  m.set r ((m.getD r []).set c v)

/-- The five references taken at lines 189-193 for a resolved index. -/
def getCell (g : GridData) (r c : ℕ) : Cell :=
  { elevation := get2d g.elevationData r c none
    variance := get2d g.varianceData r c none
    varianceX := get2d g.varianceDataX r c none
    varianceY := get2d g.varianceDataY r c none
    color := get2d g.colorData r c 0 }

/-- Writing the five per-cell references back into the grid. -/
def setCell (g : GridData) (r c : ℕ) (cell : Cell) : GridData :=
  { elevationData := set2d g.elevationData r c cell.elevation
    varianceData := set2d g.varianceData r c cell.variance
    varianceDataX := set2d g.varianceDataX r c cell.varianceX
    varianceDataY := set2d g.varianceDataY r c cell.varianceY
    colorData := set2d g.colorData r c cell.color }

/-- The body of the per-point loop of `addToElevationMap` once the index is
resolved. -/
def fusePointAt (g : GridData) (r c : ℕ) (z : ℚ) (col : ℕ) : GridData :=
  setCell g r c (fuseCell (getCell g r c) z col)

/-- Lines 176-213: `addToElevationMap` iterates over the point cloud, resolves
each point to a grid index through the external
`starleth_elevation_msg::getIndexFromPosition` (modelled by the `indexOf`
parameter; `none` means out of bounds, and the point is skipped with
`continue`), and fuses it into the addressed cell. -/
def addToElevationMap (indexOf : PointXYZRGB → Option (ℕ × ℕ))
    (pts : List PointXYZRGB) (g : GridData) : GridData :=
  pts.foldl (fun acc p =>
    match indexOf p with
    | none => acc
    | some (r, c) => fusePointAt acc r c p.z (packColor p)) g

/-- Modelled from the spec: `VarianceClampOperator` is declared in a header that
is not part of `src/`; per the spec the growth step "clamps every variance
value into `[minVariance, maxVariance]`". -/
def varianceClampOperator (lo hi v : ℚ) : ℚ :=
  min (max v lo) hi

/-- Pointwise action on a whole channel of `array() + 0.005` (Eigen adds to
every coefficient; `NaN` entries stay `NaN`). -/
def growChannel (m : List (List (Option ℚ))) : List (List (Option ℚ)) :=
  m.map (List.map (Option.map (fun v => v + processNoiseIncrement)))

/-- Pointwise action on a whole channel of `unaryExpr(VarianceClampOperator)`. -/
def clampChannel (lo hi : ℚ) (m : List (List (Option ℚ))) : List (List (Option ℚ)) :=
  m.map (List.map (Option.map (varianceClampOperator lo hi)))

/-- Lines 118-126: `updateProcessNoise` adds `0.005` to all three variance
channels and then applies the clamp operator **only** to `varianceData_`
(line 124); `varianceDataX_` and `varianceDataY_` are left unclamped.
The C++ function always returns `true`. -/
def updateProcessNoise (minVariance maxVariance : ℚ) (g : GridData) : GridData :=
  { g with
    varianceData := clampChannel minVariance maxVariance (growChannel g.varianceData)
    varianceDataX := growChannel g.varianceDataX
    varianceDataY := growChannel g.varianceDataY }

/-- C++ `static_cast<int>` applied to a real value truncates toward zero; on a
rational `q` in lowest terms this is the truncating integer division of the
numerator by the denominator. -/
def cppStaticCastInt (q : ℚ) : ℤ :=
  q.num.tdiv q.den

/-- Lines 360-376: `resize` computes `nRows = static_cast<int>(length(0)/resolution)`
and `nCols = static_cast<int>(length(1)/resolution)` and reallocates all five
channels to those dimensions.  Eigen `resize` leaves the coefficients
uninitialized; the model fills them with the unobserved sentinel (`none`/`0`),
which the `reset` of the startup lifecycle overwrites anyway. -/
def resize (resolution lengthX lengthY : ℚ) : GridData :=
  let nRows := (cppStaticCastInt (lengthX / resolution)).toNat
  let nCols := (cppStaticCastInt (lengthY / resolution)).toNat
  { elevationData := List.replicate nRows (List.replicate nCols none)
    varianceData := List.replicate nRows (List.replicate nCols none)
    varianceDataX := List.replicate nRows (List.replicate nCols none)
    varianceDataY := List.replicate nRows (List.replicate nCols none)
    colorData := List.replicate nRows (List.replicate nCols 0) }

/-- Lines 378-386: `reset` sets every elevation/variance coefficient to `NAN`
and every color coefficient to `0`, keeping the dimensions. -/
def reset (g : GridData) : GridData :=
  { elevationData := g.elevationData.map (List.map (fun _ => none))
    varianceData := g.varianceData.map (List.map (fun _ => none))
    varianceDataX := g.varianceDataX.map (List.map (fun _ => none))
    varianceDataY := g.varianceDataY.map (List.map (fun _ => none))
    colorData := g.colorData.map (List.map (fun _ => 0)) }

/-- Dimension statement: all rows present and of uniform length. -/
def channelDims (m : List (List α)) (rows cols : ℕ) : Prop :=
  m.length = rows ∧ ∀ row ∈ m, row.length = cols

/-- All five channels share the same dimensions. -/
def gridDims (g : GridData) (rows cols : ℕ) : Prop :=
  channelDims g.elevationData rows cols ∧
  channelDims g.varianceData rows cols ∧
  channelDims g.varianceDataX rows cols ∧
  channelDims g.varianceDataY rows cols ∧
  channelDims g.colorData rows cols

instance (m : List (List α)) (rows cols : ℕ) : Decidable (channelDims m rows cols) := by
  unfold channelDims; infer_instance

instance (g : GridData) (rows cols : ℕ) : Decidable (gridDims g rows cols) := by
  unfold gridDims; infer_instance

/-- The error messages the `pointCloudCallback` can emit via `ROS_ERROR`
(lines 88, 89, 92, 93, 94). -/
inductive ErrorLog
  | broadcastError
  | processNoiseError
  | transformError
  | addError
  | publishError
deriving DecidableEq

/-- The node state mutated by the callback: the grid and `timeOfLastUpdate_`. -/
structure NodeState where
  grid : GridData
  timeOfLastUpdate : ℚ
deriving DecidableEq

/-- The `starleth_elevation_msg::ElevationMap` message assembled by
`publishElevationMap` (lines 339-351): header stamp plus the five row-major
payloads.  The static fields (frame id, resolution, lengths) are configuration
pass-through and are omitted. -/
structure ElevationMapMessage where
  stamp : ℚ
  elevation : List (List (Option ℚ))
  variance : List (List (Option ℚ))
  varianceX : List (List (Option ℚ))
  varianceY : List (List (Option ℚ))
  color : List (List ℕ)
deriving DecidableEq

/-- Lines 335-358: `publishElevationMap` returns `false` without publishing when
`getNumSubscribers() < 1`; otherwise it assembles the message (stamped with
`timeOfLastUpdate_`) and publishes it.  `none` models the `return false` path. -/
def publishElevationMap (numSubscribers : ℕ) (s : NodeState) : Option ElevationMapMessage :=
  if numSubscribers < 1 then none
  else some
    { stamp := s.timeOfLastUpdate
      elevation := s.grid.elevationData
      variance := s.grid.varianceData
      varianceX := s.grid.varianceDataX
      varianceY := s.grid.varianceDataY
      color := s.grid.colorData }

/-- Lines 128-144: `cleanPointCloud` applies a pass-through filter keeping
points whose `z` lies within `[0, sensorCutoffDepth]`. -/
def cleanPointCloud (cutoff : ℚ) (pts : List PointXYZRGB) : List PointXYZRGB :=
  pts.filter (fun p => decide (0 ≤ p.z) && decide (p.z ≤ cutoff))

/-- Result of one run of the point-cloud callback: the new node state, the
published message (if any) and the sequence of `ROS_ERROR` logs. -/
structure CallbackResult where
  state : NodeState
  published : Option ElevationMapMessage
  errors : List ErrorLog
deriving DecidableEq

/-- Lines 78-95: the per-batch ingestion pipeline `pointCloudCallback`.
External steps are parameters:
* `broadcastOk` — outcome of `broadcastElevationMapTransform` (line 88; failure
  only logs);
* `noiseStep` — the process-noise update of line 89; the guard
  `if (!updateProcessNoise(time)) { ROS_ERROR(...); return; }` aborts the batch
  when it reports failure (modelled by `none`), before `setTimeOfLastUpdate`
  (line 90) runs;
* `transformStep` — the TF lookup + cloud transform of `transformPointCloud`
  (lines 146-174), applied to the cleaned cloud; `none` is the caught
  `TransformException` path (line 92), after which `addToElevationMap` is
  skipped but the callback continues to the publish step;
* `indexOf` — the external position-to-index resolver used by
  `addToElevationMap`;
* `numSubscribers` — the subscriber count consulted by `publishElevationMap`
  (line 94 logs an error when it returns `false`). -/
def pointCloudCallback (broadcastOk : Bool)
    (noiseStep : GridData → Option GridData)
    (transformStep : List PointXYZRGB → Option (List PointXYZRGB))
    (indexOf : PointXYZRGB → Option (ℕ × ℕ))
    (numSubscribers : ℕ) (cutoff : ℚ) (time : ℚ)
    (rawPoints : List PointXYZRGB) (s : NodeState) : CallbackResult :=
  let errs0 : List ErrorLog := if broadcastOk then [] else [ErrorLog.broadcastError]
  match noiseStep s.grid with
  | none =>
      { state := s, published := none
        errors := errs0 ++ [ErrorLog.processNoiseError] }
  | some grownGrid =>
      let s1 : NodeState := { grid := grownGrid, timeOfLastUpdate := time }
      let cleaned := cleanPointCloud cutoff rawPoints
      match transformStep cleaned with
      | none =>
          let msg := publishElevationMap numSubscribers s1
          { state := s1, published := msg
            errors := errs0 ++ [ErrorLog.transformError] ++
              (if msg.isNone then [ErrorLog.publishError] else []) }
      | some transformed =>
          let s2 : NodeState := { s1 with grid := addToElevationMap indexOf transformed s1.grid }
          let msg := publishElevationMap numSubscribers s2
          { state := s2, published := msg
            errors := errs0 ++ (if msg.isNone then [ErrorLog.publishError] else []) }

/-- The real noise step of the node: `updateProcessNoise` mutates the three
variance channels and always returns `true` (lines 118-126), so as a step it
never yields `none`. -/
def updateProcessNoiseStep (minVariance maxVariance : ℚ) (g : GridData) : Option GridData :=
  some (updateProcessNoise minVariance maxVariance g)

/-- Line 60: `maxNoUpdateDuration_.fromSec(1.0 / minUpdateRate)`. -/
def maxNoUpdateDuration (minUpdateRate : ℚ) : ℚ := 1 / minUpdateRate

/-- Line 37: the watchdog timer is created with period
`maxNoUpdateDuration_ * 0.5` ("Need to check at double rate"). -/
def mapUpdateTimerPeriod (maxNoUpdateDur : ℚ) : ℚ := maxNoUpdateDur * (1/2)

/-- Lines 97-107: the timer callback returns immediately while
`now - timeOfLastUpdate < maxNoUpdateDuration` (Idle) and re-broadcasts the
elevation-map transform otherwise (Stale).  The returned Bool is `true` exactly
when a stale re-broadcast is issued. -/
def mapUpdateTimerCallback (now timeOfLastUpdate maxNoUpdateDur : ℚ) : Bool :=
  !(now - timeOfLastUpdate < maxNoUpdateDur)

/-- Events driving the update scheduler: a watchdog timer tick at a given time,
or a successful sensor-driven update (which runs `setTimeOfLastUpdate`,
line 90). -/
inductive SchedulerEvent
  | timerTick (now : ℚ)
  | sensorBatch (time : ℚ)
deriving DecidableEq

/-- Observable scheduler state: `timeOfLastUpdate_` plus a counter of the
stale-path re-broadcasts issued by the timer callback. -/
structure SchedulerState where
  timeOfLastUpdate : ℚ
  staleBroadcasts : ℕ
deriving DecidableEq

/-- One scheduler transition: a timer tick runs `mapUpdateTimerCallback`, a
sensor batch stores its timestamp. -/
def schedulerStep (maxNoUpdateDur : ℚ) (s : SchedulerState) :
    SchedulerEvent → SchedulerState
  | SchedulerEvent.timerTick now =>
      if mapUpdateTimerCallback now s.timeOfLastUpdate maxNoUpdateDur then
        { s with staleBroadcasts := s.staleBroadcasts + 1 }
      else s
  | SchedulerEvent.sensorBatch t => { s with timeOfLastUpdate := t }

/-- Folding a sequence of scheduler events. -/
def schedulerRun (maxNoUpdateDur : ℚ) (s : SchedulerState)
    (evs : List SchedulerEvent) : SchedulerState :=
  evs.foldl (schedulerStep maxNoUpdateDur) s

/-- Map operations reachable after initialization: a process-noise growth step,
a fusion of one measurement resolved to a cell index, or a reset. -/
inductive MapOp
  | processNoise
  | fusePoint (r c : ℕ) (z : ℚ) (col : ℕ)
  | gridReset
deriving DecidableEq

/-- Interpretation of one map operation on the grid. -/
def applyMapOp (minVariance maxVariance : ℚ) (g : GridData) : MapOp → GridData
  | MapOp.processNoise => updateProcessNoise minVariance maxVariance g
  | MapOp.fusePoint r c z col => fusePointAt g r c z col
  | MapOp.gridReset => reset g

/-- Interpretation of a sequence of map operations. -/
def applyMapOps (minVariance maxVariance : ℚ) (g : GridData)
    (ops : List MapOp) : GridData :=
  ops.foldl (applyMapOp minVariance maxVariance) g

/-- Iterated fusion of one identical measurement into a cell. -/
def fuseIter (z : ℚ) (col : ℕ) (c : Cell) : ℕ → Cell
  | 0 => c
  | n + 1 => fuseCell (fuseIter z col c n) z col

/-- The variance recursion of the warm fusion branch (line 207), started from a
prior variance `v`. -/
def kalmanVarianceSeq (v : ℚ) : ℕ → ℚ
  | 0 => v
  | n + 1 =>
      (measurementVariance * kalmanVarianceSeq v n) /
        (measurementVariance + kalmanVarianceSeq v n)

/-! ## Helper lemmas -/

theorem measurementVariance_pos : 0 < measurementVariance := by
  norm_num [measurementVariance]

theorem get2d_mapChannel (h : ℚ → ℚ) (m : List (List (Option ℚ))) (r c : ℕ) :
    get2d (m.map (List.map (Option.map h))) r c none = (get2d m r c none).map h := by
  simp only [get2d, List.getD_eq_getElem?_getD, List.getElem?_map]
  cases hm : m[r]? with
  | none => simp
  | some row =>
      simp only [Option.map_some, Option.getD_some, List.getElem?_map]
      cases hrow : row[c]? <;> simp [hrow]

theorem get2d_growChannel (m : List (List (Option ℚ))) (r c : ℕ) :
    get2d (growChannel m) r c none =
      (get2d m r c none).map (fun v => v + processNoiseIncrement) :=
  get2d_mapChannel _ m r c

theorem get2d_clampChannel (lo hi : ℚ) (m : List (List (Option ℚ))) (r c : ℕ) :
    get2d (clampChannel lo hi m) r c none =
      (get2d m r c none).map (varianceClampOperator lo hi) :=
  get2d_mapChannel _ m r c

theorem varianceClampOperator_mem (lo hi v : ℚ) (h : lo ≤ hi) :
    lo ≤ varianceClampOperator lo hi v ∧ varianceClampOperator lo hi v ≤ hi := by
  unfold varianceClampOperator
  constructor
  · exact le_min (le_max_right v lo) h
  · exact min_le_right _ _

theorem fuseCell_varianceX_eq_varianceY (c : Cell) (z : ℚ) (col : ℕ) :
    (fuseCell c z col).varianceX = (fuseCell c z col).varianceY := by
  cases he : c.elevation <;> simp [fuseCell, he]

/-- The warm (already-observed) branch of `fuseCell`, lines 204-210, fully
evaluated when elevation and variance are initialized. -/
theorem fuseCell_warm (c : Cell) (z : ℚ) (col : ℕ) (e v : ℚ)
    (he : c.elevation = some e) (hv : c.variance = some v) :
    fuseCell c z col =
      { elevation := some ((v * z + measurementVariance * e) / (v + measurementVariance))
        variance := some ((measurementVariance * v) / (measurementVariance + v))
        varianceX := some ((measurementVariance *
            ((measurementVariance * v) / (measurementVariance + v))) /
          (measurementVariance + (measurementVariance * v) / (measurementVariance + v)))
        varianceY := some ((measurementVariance *
            ((measurementVariance * v) / (measurementVariance + v))) /
          (measurementVariance + (measurementVariance * v) / (measurementVariance + v)))
        color := col } := by
  simp [fuseCell, he, hv]

theorem kalmanVarianceSeq_pos (v : ℚ) (hv : 0 < v) (n : ℕ) :
    0 < kalmanVarianceSeq v n := by
  induction n with
  | zero => exact hv
  | succ n ih =>
      have hmv := measurementVariance_pos
      have hnum : 0 < measurementVariance * kalmanVarianceSeq v n := by positivity
      have hden : 0 < measurementVariance + kalmanVarianceSeq v n := by positivity
      exact div_pos hnum hden

theorem kalmanVarianceSeq_strict_anti (v : ℚ) (hv : 0 < v) (n : ℕ) :
    kalmanVarianceSeq v (n + 1) < kalmanVarianceSeq v n := by
  have hw := kalmanVarianceSeq_pos v hv n
  have hmv := measurementVariance_pos
  set w := kalmanVarianceSeq v n with hwdef
  have hden : 0 < measurementVariance + w := by positivity
  show (measurementVariance * w) / (measurementVariance + w) < w
  rw [div_lt_iff₀ hden]
  nlinarith

/-- Repeated fusion of the same measurement: the elevation stays put and the
variance follows `kalmanVarianceSeq`. -/
theorem fuseIter_spec (c : Cell) (z v : ℚ) (col : ℕ)
    (he : c.elevation = some z) (hv : c.variance = some v) (hvpos : 0 < v)
    (n : ℕ) :
    (fuseIter z col c n).elevation = some z ∧
    (fuseIter z col c n).variance = some (kalmanVarianceSeq v n) := by
  induction n with
  | zero => exact ⟨he, hv⟩
  | succ n ih =>
      obtain ⟨ihe, ihv⟩ := ih
      have hw := kalmanVarianceSeq_pos v hvpos n
      have hmv := measurementVariance_pos
      have hden : kalmanVarianceSeq v n + measurementVariance ≠ 0 := by positivity
      constructor
      · show (fuseCell (fuseIter z col c n) z col).elevation = some z
        rw [fuseCell_warm _ z col z (kalmanVarianceSeq v n) ihe ihv]
        simp only [Option.some.injEq]
        rw [div_eq_iff hden]; ring
      · show (fuseCell (fuseIter z col c n) z col).variance = some (kalmanVarianceSeq v (n + 1))
        rw [fuseCell_warm _ z col z (kalmanVarianceSeq v n) ihe ihv]
        rfl

/-- Closed form of the fusion variance recursion. -/
theorem kalmanVarianceSeq_closed (v : ℚ) (hv : 0 < v) (n : ℕ) :
    kalmanVarianceSeq v n =
      measurementVariance * v / (measurementVariance + n * v) := by
  have hmv := measurementVariance_pos
  induction n with
  | zero =>
      simp only [kalmanVarianceSeq, Nat.cast_zero, zero_mul, add_zero]
      rw [mul_div_cancel_left₀ v (ne_of_gt hmv)]
  | succ n ih =>
      have hden : (0:ℚ) < measurementVariance + n * v := by positivity
      have hden2 : (0:ℚ) < measurementVariance + (n + 1) * v := by positivity
      show (measurementVariance * kalmanVarianceSeq v n) /
          (measurementVariance + kalmanVarianceSeq v n) = _
      rw [ih]
      rw [div_eq_div_iff]
      · push_cast
        field_simp
        ring
      · have hpos : 0 < measurementVariance +
            measurementVariance * v / (measurementVariance + n * v) := by positivity
        exact ne_of_gt hpos
      · push_cast at hden2 ⊢
        exact ne_of_gt hden2

/-- Every single map operation preserves element-wise equality of the
`varianceDataX` and `varianceDataY` channels. -/
theorem applyMapOp_preserves_vXY (minVariance maxVariance : ℚ) (g : GridData)
    (op : MapOp) (h : g.varianceDataX = g.varianceDataY) :
    (applyMapOp minVariance maxVariance g op).varianceDataX =
      (applyMapOp minVariance maxVariance g op).varianceDataY := by
  cases op with
  | processNoise =>
      show growChannel g.varianceDataX = growChannel g.varianceDataY
      rw [h]
  | fusePoint r c z col =>
      show set2d g.varianceDataX r c (fuseCell (getCell g r c) z col).varianceX =
        set2d g.varianceDataY r c (fuseCell (getCell g r c) z col).varianceY
      rw [h, fuseCell_varianceX_eq_varianceY]
  | gridReset =>
      show g.varianceDataX.map _ = g.varianceDataY.map _
      rw [h]

theorem applyMapOps_preserves_vXY (minVariance maxVariance : ℚ)
    (ops : List MapOp) :
    ∀ g : GridData, g.varianceDataX = g.varianceDataY →
      (applyMapOps minVariance maxVariance g ops).varianceDataX =
        (applyMapOps minVariance maxVariance g ops).varianceDataY := by
  induction ops with
  | nil => intro g h; exact h
  | cons op ops ih =>
      intro g h
      exact ih (applyMapOp minVariance maxVariance g op)
        (applyMapOp_preserves_vXY minVariance maxVariance g op h)

/-- After `n` process-noise steps the (unclamped) `varianceDataX` entry has
grown by `n` increments. -/
theorem applyMapOps_replicate_processNoise_vX (minVariance maxVariance : ℚ)
    (n : ℕ) :
    ∀ (g : GridData) (r c : ℕ),
      get2d (applyMapOps minVariance maxVariance g
          (List.replicate n MapOp.processNoise)).varianceDataX r c none =
        (get2d g.varianceDataX r c none).map
          (fun v => v + n * processNoiseIncrement) := by
  induction n with
  | zero =>
      intro g r c
      show get2d g.varianceDataX r c none = _
      cases get2d g.varianceDataX r c none <;> simp
  | succ n ih =>
      intro g r c
      rw [List.replicate_succ]
      show get2d (applyMapOps minVariance maxVariance
          (applyMapOp minVariance maxVariance g MapOp.processNoise)
          (List.replicate n MapOp.processNoise)).varianceDataX r c none = _
      rw [ih]
      show (get2d (growChannel g.varianceDataX) r c none).map _ = _
      rw [get2d_growChannel, Option.map_map]
      congr 1
      funext w
      show w + processNoiseIncrement + (n : ℚ) * processNoiseIncrement = _
      push_cast
      ring

theorem getD_map (f : α → β) (l : List α) (n : ℕ) (d : β) :
    (l.map f).getD n d = (Option.map f l[n]?).getD d := by
  rw [List.getD_eq_getElem?_getD, List.getElem?_map]

theorem get2d_map_const (m : List (List α)) (r c : ℕ) (d : α) :
    get2d (m.map (List.map (fun _ => d))) r c d = d := by
  unfold get2d
  rw [getD_map]
  cases hm : m[r]? with
  | none => rfl
  | some row =>
      show List.getD (row.map fun _ => d) c d = d
      rw [getD_map]
      cases hrow : row[c]? with
      | none => rfl
      | some x => rfl

/-- On nonnegative rationals `static_cast<int>` agrees with the floor. -/
theorem cppStaticCastInt_eq_floor (q : ℚ) (hq : 0 ≤ q) :
    cppStaticCastInt q = ⌊q⌋ := by
  unfold cppStaticCastInt
  rw [Int.tdiv_eq_ediv (Rat.num_nonneg.mpr hq) (Int.ofNat_nonneg q.den)]
  exact (Rat.floor_def).symm

theorem channelDims_replicate (rows cols : ℕ) (d : α) :
    channelDims (List.replicate rows (List.replicate cols d)) rows cols := by
  refine ⟨List.length_replicate rows _, ?_⟩
  intro row hrow
  rw [List.eq_of_mem_replicate hrow]
  exact List.length_replicate cols d

theorem gridDims_resize (resolution lengthX lengthY : ℚ) :
    gridDims (resize resolution lengthX lengthY)
      (cppStaticCastInt (lengthX / resolution)).toNat
      (cppStaticCastInt (lengthY / resolution)).toNat := by
  refine ⟨?_, ?_, ?_, ?_, ?_⟩ <;> exact channelDims_replicate _ _ _

/-! ## Claim theorems -/

/-- C2: in the non-cold-start fusion branch, `varianceX` and `varianceY` are
computed from the already-updated `variance` (the value written by this fusion
step at line 207), not from the pre-update variance: fusing a measurement with
variance `mv = measurementVariance` into a cell with prior variance `v` yields
`variance = mv*v/(mv+v)` and
`varianceX = varianceY = mv*variance'/(mv+variance')` where
`variance' = mv*v/(mv+v)`. -/
theorem fuseCell_varianceXY_from_updated_variance (c : Cell) (z : ℚ) (col : ℕ)
    (e v : ℚ) (he : c.elevation = some e) (hv : c.variance = some v) :
    (fuseCell c z col).variance =
      some ((measurementVariance * v) / (measurementVariance + v)) ∧
    (fuseCell c z col).varianceX =
      some ((measurementVariance *
          ((measurementVariance * v) / (measurementVariance + v))) /
        (measurementVariance +
          (measurementVariance * v) / (measurementVariance + v))) ∧
    (fuseCell c z col).varianceY = (fuseCell c z col).varianceX := by
  rw [fuseCell_warm c z col e v he hv]
  exact ⟨rfl, rfl, rfl⟩

/-- Witness for C2 at a concrete cell: prior elevation 1, prior variance 0.3,
measurement 2. -/
theorem fuseCell_varianceXY_from_updated_variance_witness :
    (fuseCell ⟨some 1, some (3/10), none, none, 0⟩ 2 5).variance =
      some ((measurementVariance * (3/10)) / (measurementVariance + 3/10)) ∧
    (fuseCell ⟨some 1, some (3/10), none, none, 0⟩ 2 5).varianceX =
      some ((measurementVariance *
          ((measurementVariance * (3/10)) / (measurementVariance + 3/10))) /
        (measurementVariance +
          (measurementVariance * (3/10)) / (measurementVariance + 3/10))) ∧
    (fuseCell ⟨some 1, some (3/10), none, none, 0⟩ 2 5).varianceY =
      (fuseCell ⟨some 1, some (3/10), none, none, 0⟩ 2 5).varianceX :=
  fuseCell_varianceXY_from_updated_variance
    ⟨some 1, some (3/10), none, none, 0⟩ 2 5 1 (3/10) rfl rfl

/-- C3: fusing a first observation into a cell whose elevation is `NaN`
(modelled as `none`) stores the observation's elevation and sets all three
variance channels to `measurementVariance`, which is the constant `0.3`
(lines 195-203). -/
theorem fuseCell_cold_start (c : Cell) (z : ℚ) (col : ℕ)
    (he : c.elevation = none) :
    fuseCell c z col =
      { elevation := some z
        variance := some measurementVariance
        varianceX := some measurementVariance
        varianceY := some measurementVariance
        color := col } ∧
    measurementVariance = 3/10 := by
  constructor
  · unfold fuseCell
    rw [he]
  · rfl

/-- Witness for C3 at a concrete unobserved cell. -/
theorem fuseCell_cold_start_witness :
    fuseCell ⟨none, none, none, none, 7⟩ 5 9 =
      { elevation := some 5
        variance := some measurementVariance
        varianceX := some measurementVariance
        varianceY := some measurementVariance
        color := 9 } ∧
    measurementVariance = 3/10 :=
  fuseCell_cold_start ⟨none, none, none, none, 7⟩ 5 9 rfl

/-- C4 (amended): repeatedly fusing the identical observation `z` into a cell
keeps the elevation at `z` and drives the variance strictly monotonically
downward while it stays positive; the fusion step applies no clamping, so the
variance is **not** bounded below by `minVariance` (see the counterexample). -/
theorem fuseIter_monotone_convergence (c : Cell) (z v : ℚ) (col : ℕ)
    (he : c.elevation = some z) (hv : c.variance = some v) (hvpos : 0 < v)
    (n : ℕ) :
    (fuseIter z col c n).elevation = some z ∧
    (fuseIter z col c n).variance = some (kalmanVarianceSeq v n) ∧
    0 < kalmanVarianceSeq v n ∧
    kalmanVarianceSeq v (n + 1) < kalmanVarianceSeq v n := by
  obtain ⟨h1, h2⟩ := fuseIter_spec c z v col he hv hvpos n
  exact ⟨h1, h2, kalmanVarianceSeq_pos v hvpos n,
    kalmanVarianceSeq_strict_anti v hvpos n⟩

/-- Witness for C4 (amended) after one fusion into a cell holding
elevation 1 and variance 0.3. -/
theorem fuseIter_monotone_convergence_witness :
    (fuseIter 1 0 ⟨some 1, some (3/10), none, none, 0⟩ 1).elevation = some 1 ∧
    (fuseIter 1 0 ⟨some 1, some (3/10), none, none, 0⟩ 1).variance =
      some (kalmanVarianceSeq (3/10) 1) ∧
    0 < kalmanVarianceSeq (3/10) 1 ∧
    kalmanVarianceSeq (3/10) 2 < kalmanVarianceSeq (3/10) 1 :=
  fuseIter_monotone_convergence ⟨some 1, some (3/10), none, none, 0⟩ 1 (3/10) 0
    rfl rfl (by norm_num) 1

/-- Counterexample for C4 as stated: with the default `minVariance = 0.001`,
fusing the identical observation 300 more times after the cold start leaves
the cell's variance at `3/3010 < 0.001`, i.e. **below** `minVariance` — the
fusion update never clamps. -/
theorem fuseIter_drops_below_minVariance :
    (fuseIter 1 0 (fuseCell ⟨none, none, none, none, 0⟩ 1 0) 300).variance =
      some (3/3010) ∧
    (3/3010 : ℚ) < 1/1000 := by
  have hcold : fuseCell ⟨none, none, none, none, 0⟩ 1 0 =
      { elevation := some 1, variance := some measurementVariance
        varianceX := some measurementVariance
        varianceY := some measurementVariance, color := 0 } := rfl
  have hmv : (0:ℚ) < measurementVariance := measurementVariance_pos
  obtain ⟨-, h2⟩ := fuseIter_spec (fuseCell ⟨none, none, none, none, 0⟩ 1 0)
    1 measurementVariance 0 (by rw [hcold]) (by rw [hcold]) hmv 300
  rw [h2, kalmanVarianceSeq_closed _ hmv 300]
  constructor
  · norm_num [measurementVariance]
  · norm_num

/-- C1 (amended): the growth step clamps every initialized value of the
`variance` channel into `[minVariance, maxVariance]` (line 124); the
`varianceX` and `varianceY` channels receive the `+0.005` increment but are
**not** clamped, so the claimed three-channel invariant fails (see the
counterexample). -/
theorem updateProcessNoise_clamps_variance_channel
    (minVariance maxVariance : ℚ) (hminmax : minVariance ≤ maxVariance)
    (g : GridData) (r c : ℕ) (v : ℚ)
    (hv : get2d (updateProcessNoise minVariance maxVariance g).varianceData
      r c none = some v) :
    minVariance ≤ v ∧ v ≤ maxVariance := by
  have hchan : get2d (updateProcessNoise minVariance maxVariance g).varianceData
      r c none =
      (get2d g.varianceData r c none).map
        (fun w => varianceClampOperator minVariance maxVariance
          (w + processNoiseIncrement)) := by
    show get2d (clampChannel minVariance maxVariance
      (growChannel g.varianceData)) r c none = _
    rw [get2d_clampChannel, get2d_growChannel, Option.map_map]
    rfl
  rw [hchan] at hv
  cases hw : get2d g.varianceData r c none with
  | none => rw [hw] at hv; exact absurd hv (by simp)
  | some w =>
      rw [hw] at hv
      simp only [Option.map_some', Option.some.injEq] at hv
      rw [← hv]
      exact varianceClampOperator_mem minVariance maxVariance
        (w + processNoiseIncrement) hminmax

/-- Witness for C1 (amended) on a concrete 1x1 grid holding variance 0.3 with
the default bounds `[0.001, 0.5]`: the grown value `0.305` stays in range. -/
theorem updateProcessNoise_clamps_variance_channel_witness :
    get2d (updateProcessNoise (1/1000) (1/2)
        { elevationData := [[some 1]], varianceData := [[some (3/10)]]
          varianceDataX := [[some (3/10)]], varianceDataY := [[some (3/10)]]
          colorData := [[0]] }).varianceData 0 0 none = some (61/200) ∧
    ((1/1000 : ℚ) ≤ 61/200 ∧ (61/200 : ℚ) ≤ 1/2) := by
  have hv : get2d (updateProcessNoise (1/1000) (1/2)
      { elevationData := [[some 1]], varianceData := [[some (3/10)]]
        varianceDataX := [[some (3/10)]], varianceDataY := [[some (3/10)]]
        colorData := [[0]] }).varianceData 0 0 none = some (61/200) := by
    show some (varianceClampOperator (1/1000) (1/2) (3/10 + processNoiseIncrement)) =
      some (61/200)
    norm_num [varianceClampOperator, processNoiseIncrement, min_def, max_def]
  exact ⟨hv, updateProcessNoise_clamps_variance_channel (1/1000) (1/2)
    (by norm_num) _ 0 0 (61/200) hv⟩

/-- Counterexample for C1 as stated: starting from an initialized 1x1 grid
(one cold-start fusion) and applying the growth step 41 times with the default
bounds `minVariance = 0.001`, `maxVariance = 0.5`, the `varianceX` channel
reaches `0.3 + 41*0.005 = 0.505 > maxVariance`: the growth step does not clamp
`varianceX` (nor `varianceY`), so not every initialized variance value stays in
`[minVariance, maxVariance]`. -/
theorem updateProcessNoise_varianceX_escapes_bounds :
    get2d (applyMapOps (1/1000) (1/2) (reset (resize 1 1 1))
        (MapOp.fusePoint 0 0 1 0 :: List.replicate 41 MapOp.processNoise)).varianceDataX
      0 0 none = some (101/200) ∧
    ¬ ((101/200 : ℚ) ≤ 1/2) := by
  have hresize : resize 1 1 1 =
      { elevationData := [[none]], varianceData := [[none]]
        varianceDataX := [[none]], varianceDataY := [[none]]
        colorData := [[0]] } := by
    have hcast : cppStaticCastInt ((1:ℚ)/1) = 1 := by
      norm_num [cppStaticCastInt]
    show ({ elevationData := List.replicate (cppStaticCastInt ((1:ℚ)/1)).toNat _
            varianceData := _, varianceDataX := _, varianceDataY := _
            colorData := _ } : GridData) = _
    rw [hcast]
    rfl
  constructor
  · show get2d (applyMapOps (1/1000) (1/2)
        (fusePointAt (reset (resize 1 1 1)) 0 0 1 0)
        (List.replicate 41 MapOp.processNoise)).varianceDataX 0 0 none = _
    rw [applyMapOps_replicate_processNoise_vX]
    have hx : get2d (fusePointAt (reset (resize 1 1 1)) 0 0 1 0).varianceDataX
        0 0 none = some measurementVariance := by
      rw [hresize]; rfl
    rw [hx]
    simp only [Option.map_some', Option.some.injEq]
    norm_num [measurementVariance, processNoiseIncrement]
  · norm_num

/-- C5 (amended): with zero subscribers the publish step sends no message
(a no-op on the outside world) and the batch is still fully processed, but
`publishElevationMap` returns `false` (line 337) and the ingestion pipeline
logs an error for it (line 94) — the zero-consumer case **is** treated as an
error by the pipeline. -/
theorem publish_skipped_and_error_logged_on_zero_subscribers
    (broadcastOk : Bool) (minVariance maxVariance : ℚ)
    (transformStep : List PointXYZRGB → Option (List PointXYZRGB))
    (indexOf : PointXYZRGB → Option (ℕ × ℕ))
    (numSubscribers : ℕ) (cutoff time : ℚ) (rawPoints : List PointXYZRGB)
    (s : NodeState) (hzero : numSubscribers = 0) :
    (pointCloudCallback broadcastOk
        (updateProcessNoiseStep minVariance maxVariance) transformStep indexOf
        numSubscribers cutoff time rawPoints s).published = none ∧
    ErrorLog.publishError ∈ (pointCloudCallback broadcastOk
        (updateProcessNoiseStep minVariance maxVariance) transformStep indexOf
        numSubscribers cutoff time rawPoints s).errors ∧
    (pointCloudCallback broadcastOk
        (updateProcessNoiseStep minVariance maxVariance) transformStep indexOf
        numSubscribers cutoff time rawPoints s).state.timeOfLastUpdate = time := by
  subst hzero
  cases htr : transformStep (cleanPointCloud cutoff rawPoints) <;>
    simp [pointCloudCallback, updateProcessNoiseStep, htr, publishElevationMap]

/-- Witness for C5 (amended) on a concrete empty batch with no subscribers. -/
theorem publish_skipped_and_error_logged_on_zero_subscribers_witness :
    (pointCloudCallback true (updateProcessNoiseStep (1/1000) (1/2))
        (fun pts => some pts) (fun _ => none) 0 3 1 []
        ⟨⟨[], [], [], [], []⟩, 0⟩).published = none ∧
    ErrorLog.publishError ∈ (pointCloudCallback true
        (updateProcessNoiseStep (1/1000) (1/2)) (fun pts => some pts)
        (fun _ => none) 0 3 1 [] ⟨⟨[], [], [], [], []⟩, 0⟩).errors ∧
    (pointCloudCallback true (updateProcessNoiseStep (1/1000) (1/2))
        (fun pts => some pts) (fun _ => none) 0 3 1 []
        ⟨⟨[], [], [], [], []⟩, 0⟩).state.timeOfLastUpdate = 1 :=
  publish_skipped_and_error_logged_on_zero_subscribers true (1/1000) (1/2)
    (fun pts => some pts) (fun _ => none) 0 3 1 [] ⟨⟨[], [], [], [], []⟩, 0⟩ rfl

/-- Counterexample for C5 as stated: with zero consumers the publish step is
indeed skipped (`published = none`), but the pipeline logs
`ElevationMap: Broadcasting elevation map failed.` because
`publishElevationMap` returned `false` — contradicting "this is not treated as
an error by the ingestion pipeline". -/
theorem publish_skip_logged_as_error_counterexample :
    (pointCloudCallback true (updateProcessNoiseStep (1/1000) (1/2))
        (fun pts => some pts) (fun _ => none) 0 3 1 []
        ⟨⟨[], [], [], [], []⟩, 0⟩).published = none ∧
    ErrorLog.publishError ∈ (pointCloudCallback true
        (updateProcessNoiseStep (1/1000) (1/2)) (fun pts => some pts)
        (fun _ => none) 0 3 1 [] ⟨⟨[], [], [], [], []⟩, 0⟩).errors := by
  constructor <;>
    simp [pointCloudCallback, updateProcessNoiseStep, cleanPointCloud,
      addToElevationMap, publishElevationMap]

/-- C7: when the process-noise growth step reports failure, the callback
aborts the whole batch with an early return (line 89): the node state —
map grid and `timeOfLastUpdate` — is returned unchanged, no point is fused,
and nothing is published.  (In the reference code `updateProcessNoise` always
returns `true`; the theorem verifies the abort path of the guard for an
arbitrary noise step.) -/
theorem processNoise_failure_aborts_batch (broadcastOk : Bool)
    (noiseStep : GridData → Option GridData)
    (transformStep : List PointXYZRGB → Option (List PointXYZRGB))
    (indexOf : PointXYZRGB → Option (ℕ × ℕ))
    (numSubscribers : ℕ) (cutoff time : ℚ) (rawPoints : List PointXYZRGB)
    (s : NodeState) (hfail : noiseStep s.grid = none) :
    pointCloudCallback broadcastOk noiseStep transformStep indexOf
        numSubscribers cutoff time rawPoints s =
      { state := s, published := none
        errors := (if broadcastOk then [] else [ErrorLog.broadcastError]) ++
          [ErrorLog.processNoiseError] } := by
  simp [pointCloudCallback, hfail]

/-- Witness for C7: a failing noise step on a concrete initialized state
leaves the state exactly as it was. -/
theorem processNoise_failure_aborts_batch_witness :
    (fun _ : GridData => (none : Option GridData))
      (NodeState.grid ⟨⟨[[some 1]], [[some (3/10)]], [[some (3/10)]],
        [[some (3/10)]], [[5]]⟩, 2⟩) = none ∧
    pointCloudCallback true (fun _ => none) (fun pts => some pts)
        (fun _ => none) 1 3 7 []
        ⟨⟨[[some 1]], [[some (3/10)]], [[some (3/10)]], [[some (3/10)]],
          [[5]]⟩, 2⟩ =
      { state := ⟨⟨[[some 1]], [[some (3/10)]], [[some (3/10)]],
          [[some (3/10)]], [[5]]⟩, 2⟩
        published := none
        errors := [ErrorLog.processNoiseError] } := by
  refine ⟨rfl, ?_⟩
  have h := processNoise_failure_aborts_batch true (fun _ => none)
    (fun pts => some pts) (fun _ => none) 1 3 7 []
    ⟨⟨[[some 1]], [[some (3/10)]], [[some (3/10)]], [[some (3/10)]],
      [[5]]⟩, 2⟩ rfl
  simpa using h

/-- C8 (amended): when the bounded-wait transform lookup fails, the pipeline
logs the failure and skips fusion — the elevation and color channels are left
unchanged — but the grid is **not** unchanged for the cycle: the variance
channels were already modified by the process-noise growth step that ran
before the transform attempt, and `timeOfLastUpdate` was set. -/
theorem transform_failure_skips_fusion (broadcastOk : Bool)
    (minVariance maxVariance : ℚ)
    (transformStep : List PointXYZRGB → Option (List PointXYZRGB))
    (indexOf : PointXYZRGB → Option (ℕ × ℕ))
    (numSubscribers : ℕ) (cutoff time : ℚ) (rawPoints : List PointXYZRGB)
    (s : NodeState)
    (hfail : transformStep (cleanPointCloud cutoff rawPoints) = none) :
    (pointCloudCallback broadcastOk
        (updateProcessNoiseStep minVariance maxVariance) transformStep indexOf
        numSubscribers cutoff time rawPoints s).state.grid =
      updateProcessNoise minVariance maxVariance s.grid ∧
    (pointCloudCallback broadcastOk
        (updateProcessNoiseStep minVariance maxVariance) transformStep indexOf
        numSubscribers cutoff time rawPoints s).state.grid.elevationData =
      s.grid.elevationData ∧
    (pointCloudCallback broadcastOk
        (updateProcessNoiseStep minVariance maxVariance) transformStep indexOf
        numSubscribers cutoff time rawPoints s).state.grid.colorData =
      s.grid.colorData ∧
    ErrorLog.transformError ∈ (pointCloudCallback broadcastOk
        (updateProcessNoiseStep minVariance maxVariance) transformStep indexOf
        numSubscribers cutoff time rawPoints s).errors := by
  simp [pointCloudCallback, updateProcessNoiseStep, hfail, updateProcessNoise]

/-- Witness for C8 (amended) on a concrete initialized 1x1 map with a failing
transform lookup. -/
theorem transform_failure_skips_fusion_witness :
    (fun _ : List PointXYZRGB => (none : Option (List PointXYZRGB)))
      (cleanPointCloud 3 []) = none ∧
    (pointCloudCallback true (updateProcessNoiseStep (1/1000) (1/2))
        (fun _ => none) (fun _ => none) 1 3 1 []
        ⟨⟨[[some 1]], [[some (3/10)]], [[some (3/10)]], [[some (3/10)]],
          [[5]]⟩, 0⟩).state.grid =
      updateProcessNoise (1/1000) (1/2)
        ⟨[[some 1]], [[some (3/10)]], [[some (3/10)]], [[some (3/10)]], [[5]]⟩ ∧
    (pointCloudCallback true (updateProcessNoiseStep (1/1000) (1/2))
        (fun _ => none) (fun _ => none) 1 3 1 []
        ⟨⟨[[some 1]], [[some (3/10)]], [[some (3/10)]], [[some (3/10)]],
          [[5]]⟩, 0⟩).state.grid.elevationData = [[some 1]] ∧
    ErrorLog.transformError ∈ (pointCloudCallback true
        (updateProcessNoiseStep (1/1000) (1/2)) (fun _ => none)
        (fun _ => none) 1 3 1 []
        ⟨⟨[[some 1]], [[some (3/10)]], [[some (3/10)]], [[some (3/10)]],
          [[5]]⟩, 0⟩).errors := by
  have h := transform_failure_skips_fusion true (1/1000) (1/2)
    (fun _ => none) (fun _ => none) 1 3 1 []
    ⟨⟨[[some 1]], [[some (3/10)]], [[some (3/10)]], [[some (3/10)]],
      [[5]]⟩, 0⟩ rfl
  exact ⟨rfl, h.1, h.2.1, h.2.2.2⟩

/-- Counterexample for C8 as stated: with a failing transform lookup the map is
**not** left unchanged for the cycle — the variance channel has already been
grown (0.3 to 0.305) by the process-noise step that runs before the transform
attempt. -/
theorem transform_failure_map_changed_counterexample :
    (pointCloudCallback true (updateProcessNoiseStep (1/1000) (1/2))
        (fun _ => none) (fun _ => none) 1 3 1 []
        ⟨⟨[[some 1]], [[some (3/10)]], [[some (3/10)]], [[some (3/10)]],
          [[5]]⟩, 0⟩).state.grid.varianceData ≠ [[some (3/10)]] := by
  intro h
  have h2 : some (varianceClampOperator (1/1000) (1/2)
      ((3:ℚ)/10 + processNoiseIncrement)) = some ((3:ℚ)/10) := by
    simpa [pointCloudCallback, updateProcessNoiseStep, updateProcessNoise,
      growChannel, clampChannel] using h
  rw [Option.some.injEq] at h2
  rw [varianceClampOperator, processNoiseIncrement] at h2
  norm_num [min_def, max_def] at h2

/-- C6: the watchdog is a two-state machine.  With `minUpdateRate = 2.0` the
maximum no-update gap is `0.5 s` and the timer period is `0.25 s`, i.e. the
timer fires at `4 Hz = 2 * minUpdateRate` (twice the minimum required update
frequency, line 37).  The callback re-broadcasts (Stale) exactly when
`now - timeOfLastUpdate >= maxNoUpdateDuration` (line 99).  In the scenario
where no batch arrives for `0.6 s` (ticks at 0.25 and 0.5, batch at 0.6, tick
at 0.75) exactly one stale re-broadcast is issued, and the machine is back to
Idle at the tick following the batch. -/
theorem watchdog_two_state_scenario :
    maxNoUpdateDuration 2 = 1/2 ∧
    mapUpdateTimerPeriod (maxNoUpdateDuration 2) = 1/4 ∧
    1 / mapUpdateTimerPeriod (maxNoUpdateDuration 2) = 2 * 2 ∧
    (∀ now timeOfLastUpdate : ℚ,
      mapUpdateTimerCallback now timeOfLastUpdate (maxNoUpdateDuration 2) = true ↔
        maxNoUpdateDuration 2 ≤ now - timeOfLastUpdate) ∧
    schedulerRun (maxNoUpdateDuration 2) ⟨0, 0⟩
        [SchedulerEvent.timerTick (1/4), SchedulerEvent.timerTick (1/2),
         SchedulerEvent.sensorBatch (3/5), SchedulerEvent.timerTick (3/4)] =
      ⟨3/5, 1⟩ := by
  have hd : maxNoUpdateDuration 2 = 1/2 := by norm_num [maxNoUpdateDuration]
  refine ⟨hd, ?_, ?_, ?_, ?_⟩
  · norm_num [mapUpdateTimerPeriod, hd]
  · norm_num [mapUpdateTimerPeriod, hd, maxNoUpdateDuration]
  · intro now t
    rw [hd, mapUpdateTimerCallback]
    simp [not_lt]
  · rw [hd]
    show schedulerStep (1/2) (schedulerStep (1/2) (schedulerStep (1/2)
      (schedulerStep (1/2) ⟨0, 0⟩ (SchedulerEvent.timerTick (1/4)))
      (SchedulerEvent.timerTick (1/2))) (SchedulerEvent.sensorBatch (3/5)))
      (SchedulerEvent.timerTick (3/4)) = ⟨3/5, 1⟩
    have h1 : schedulerStep (1/2) ⟨0, 0⟩ (SchedulerEvent.timerTick (1/4)) =
        (⟨0, 0⟩ : SchedulerState) := by
      simp only [schedulerStep, mapUpdateTimerCallback]
      norm_num
    have h2 : schedulerStep (1/2) ⟨0, 0⟩ (SchedulerEvent.timerTick (1/2)) =
        (⟨0, 1⟩ : SchedulerState) := by
      simp only [schedulerStep, mapUpdateTimerCallback]
      norm_num
    have h3 : schedulerStep (1/2) ⟨0, 1⟩ (SchedulerEvent.sensorBatch (3/5)) =
        (⟨3/5, 1⟩ : SchedulerState) := rfl
    have h4 : schedulerStep (1/2) ⟨3/5, 1⟩ (SchedulerEvent.timerTick (3/4)) =
        (⟨3/5, 1⟩ : SchedulerState) := by
      simp only [schedulerStep, mapUpdateTimerCallback]
      norm_num
    rw [h1, h2, h3, h4]

/-- C9: `resize` computes `rows = floor(lengthX/resolution)` and
`cols = floor(lengthY/resolution)` (truncation toward zero agrees with the
floor on the nonnegative configuration values) and reallocates all five
channels to those dimensions; `resize(1.0, 1.0)` at `resolution = 0.1` yields
a 10x10 grid; a reset afterwards sets every elevation/variance entry to `NaN`
and every color entry to `0` (for any grid, every entry read after `reset` is
the `NaN`/`0` sentinel). -/
theorem resize_then_reset_grid (resolution lengthX lengthY : ℚ)
    (hres : 0 < resolution) (hx : 0 ≤ lengthX) (hy : 0 ≤ lengthY) :
    gridDims (resize resolution lengthX lengthY)
      (⌊lengthX / resolution⌋).toNat (⌊lengthY / resolution⌋).toNat ∧
    gridDims (resize (1/10) 1 1) 10 10 ∧
    reset (resize (1/10) 1 1) =
      { elevationData := List.replicate 10 (List.replicate 10 none)
        varianceData := List.replicate 10 (List.replicate 10 none)
        varianceDataX := List.replicate 10 (List.replicate 10 none)
        varianceDataY := List.replicate 10 (List.replicate 10 none)
        colorData := List.replicate 10 (List.replicate 10 0) } ∧
    (∀ (g : GridData) (r c : ℕ),
      get2d (reset g).elevationData r c none = none ∧
      get2d (reset g).varianceData r c none = none ∧
      get2d (reset g).varianceDataX r c none = none ∧
      get2d (reset g).varianceDataY r c none = none ∧
      get2d (reset g).colorData r c 0 = 0) := by
  have hcast : cppStaticCastInt ((1:ℚ)/(1/10)) = 10 := by
    norm_num [cppStaticCastInt]
  have hres10 : resize (1/10) 1 1 =
      { elevationData := List.replicate 10 (List.replicate 10 none)
        varianceData := List.replicate 10 (List.replicate 10 none)
        varianceDataX := List.replicate 10 (List.replicate 10 none)
        varianceDataY := List.replicate 10 (List.replicate 10 none)
        colorData := List.replicate 10 (List.replicate 10 0) } := by
    simp only [resize]
    rw [hcast]
    rfl
  refine ⟨?_, ?_, ?_, ?_⟩
  · rw [← cppStaticCastInt_eq_floor _ (div_nonneg hx hres.le),
      ← cppStaticCastInt_eq_floor _ (div_nonneg hy hres.le)]
    exact gridDims_resize resolution lengthX lengthY
  · rw [hres10]
    exact ⟨channelDims_replicate _ _ _, channelDims_replicate _ _ _,
      channelDims_replicate _ _ _, channelDims_replicate _ _ _,
      channelDims_replicate _ _ _⟩
  · rw [hres10]
    rfl
  · intro g r c
    exact ⟨get2d_map_const _ r c _, get2d_map_const _ r c _,
      get2d_map_const _ r c _, get2d_map_const _ r c _,
      get2d_map_const _ r c _⟩

/-- Witness for C9 at the concrete configuration of the claim
(`lengthX = lengthY = 1.0`, `resolution = 0.1`). -/
theorem resize_then_reset_grid_witness :
    gridDims (resize (1/10) 1 1)
      (⌊(1:ℚ) / (1/10)⌋).toNat (⌊(1:ℚ) / (1/10)⌋).toNat ∧
    gridDims (resize (1/10) 1 1) 10 10 ∧
    reset (resize (1/10) 1 1) =
      { elevationData := List.replicate 10 (List.replicate 10 none)
        varianceData := List.replicate 10 (List.replicate 10 none)
        varianceDataX := List.replicate 10 (List.replicate 10 none)
        varianceDataY := List.replicate 10 (List.replicate 10 none)
        colorData := List.replicate 10 (List.replicate 10 0) } ∧
    (∀ (g : GridData) (r c : ℕ),
      get2d (reset g).elevationData r c none = none ∧
      get2d (reset g).varianceData r c none = none ∧
      get2d (reset g).varianceDataX r c none = none ∧
      get2d (reset g).varianceDataY r c none = none ∧
      get2d (reset g).colorData r c 0 = 0) :=
  resize_then_reset_grid (1/10) 1 1 (by norm_num) (by norm_num) (by norm_num)

/-- C10: in every state reachable from the initialized map (`resize` followed
by `reset`) through any sequence of process-noise growth steps, per-cell
fusions and resets, the `varianceX` grid and the `varianceY` grid are equal:
`reset` writes `NaN` to both (lines 382-383), growth adds the same `0.005` to
both without clamping either (lines 122-123), and both fusion branches write
the identical value to both channels (lines 201-202 and 208-209). -/
theorem varianceX_eq_varianceY_invariant
    (minVariance maxVariance resolution lengthX lengthY : ℚ)
    (ops : List MapOp) :
    (applyMapOps minVariance maxVariance
        (reset (resize resolution lengthX lengthY)) ops).varianceDataX =
      (applyMapOps minVariance maxVariance
        (reset (resize resolution lengthX lengthY)) ops).varianceDataY :=
  applyMapOps_preserves_vXY minVariance maxVariance ops
    (reset (resize resolution lengthX lengthY)) rfl

end StarlethElevationMap
